import Mathlib

/-!
Shallow embedding of the order-creation / capture / one-click flow of
`src/server.js` (the route layer cited by the specification: the
`/api/orders` handler at lines 507-552 and the `/api/orders/oneclick`
handler at lines 557-597).

Outbound HTTP to the payment processor is modelled by a `Processor`
record of response functions; the handlers are pure functions of the
request body, the headers, the processor, and the current time
(`Date.now()`), returning the HTTP response together with the ordered
trace of outbound network calls they issued.
-/

namespace VaultServer

/-- JavaScript truthiness of an optional string field of a JSON body:
`undefined`/`null` (`none`) and the empty string are falsy. -/
def truthy : Option String → Bool
  | none => false
  | some s => !s.data.isEmpty

/-- The amount object of a purchase unit: currency code and decimal value. -/
structure Amount where
  currency_code : String
  value : String
deriving DecidableEq

/-- One element of `purchase_units`: `{ amount, description }`. -/
structure PurchaseUnit where
  amount : Amount
  description : String
deriving DecidableEq

/-- The experience-context block of the interactive payment source as
built at server.js lines 525-532 (this handler sends no return/cancel
URL fields). -/
structure ExperienceContext where
  payment_method_preference : String
  brand_name : String
  locale : String
  landing_page : String
  shipping_preference : String
  user_action : String
deriving DecidableEq

/-- The vault-on-success attribute block of the interactive payment
source, with the optional `customer_id` that the handler assigns
afterwards when a customerId is given (line 537). -/
structure VaultAttributes where
  store_in_vault : String
  usage_type : String
  customer_type : String
  customer_id : Option String
deriving DecidableEq

/-- The `payment_source` object: either the stored-instrument token
reference `{ token: { id, type } }` (line 517) or the interactive
`{ paypal: { experience_context, attributes: { vault } } }` source
(lines 523-535).  The token constructor carries no vault attributes,
exactly as in the source. -/
inductive PaymentSource where
  | token (id : String) (type_ : String)
  | paypal (experience_context : ExperienceContext) (vault : VaultAttributes)
deriving DecidableEq

/-- An order-creation payload `{ intent, purchase_units, payment_source }`. -/
structure OrderPayload where
  intent : String
  purchase_units : List PurchaseUnit
  payment_source : PaymentSource
deriving DecidableEq

/-! ### Payload construction of the /api/orders handler (lines 507-538) -/

/-- Body of a `POST /api/orders` request (spec section 6:
`{customerId?, vaultId?, shippingMode?}`).  The handler destructures
only `customerId` and `vaultId` (line 510); `shippingMode` is part of
the request surface but is never read. -/
structure OrdersBody where
  customerId : Option String
  vaultId : Option String
  shippingMode : Option String
deriving DecidableEq

/-- The experience context literal of the interactive branch
(lines 525-532). -/
def ordersExperienceContext : ExperienceContext :=
  { payment_method_preference := "IMMEDIATE_PAYMENT_REQUIRED"
    brand_name := "PayPal Vault Demo"
    locale := "ja-JP"
    landing_page := "LOGIN"
    shipping_preference := "NO_SHIPPING"
    user_action := "PAY_NOW" }

/-- The mutation
`orderPayload.payment_source.paypal.attributes.vault.customer_id = customerId`
(line 537), as a functional update of the nested field. -/
def setVaultCustomerId (p : OrderPayload) (c : String) : OrderPayload :=
  match p.payment_source with
  | .paypal ctx v =>
      { p with payment_source := .paypal ctx { v with customer_id := some c } }
  | .token _ _ => p

/-- The order payload as built by the `/api/orders` handler
(lines 512-538): if `vaultId` is truthy take the stored-instrument
branch, else the interactive branch, then if `customerId` is truthy
attach `vault.customer_id`. -/
def buildOrdersPayload (b : OrdersBody) : OrderPayload :=
  if truthy b.vaultId then
    { intent := "CAPTURE"
      purchase_units :=
        [{ amount := { currency_code := "JPY", value := "100" }
           description := "PayPal Vault テスト商品（保存済み）" }]
      payment_source := .token (b.vaultId.getD "") "PAYMENT_METHOD_TOKEN" }
  else
    let base : OrderPayload :=
      { intent := "CAPTURE"
        purchase_units :=
          [{ amount := { currency_code := "JPY", value := "100" }
             description := "PayPal Vault テスト商品" }]
        payment_source := .paypal ordersExperienceContext
          { store_in_vault := "ON_SUCCESS"
            usage_type := "MERCHANT"
            customer_type := "CONSUMER"
            customer_id := none } }
    if truthy b.customerId then setVaultCustomerId base (b.customerId.getD "") else base

/-- Observer: the `shipping_preference` carried by the payment source
of a payload, when the interactive (`paypal`) source is used; the token
source carries no experience context and hence no preference. -/
def shippingPrefOf (p : OrderPayload) : Option String :=
  match p.payment_source with
  | .paypal ctx _ => some ctx.shipping_preference
  | .token _ _ => none

/-! ### The /api/orders/oneclick handler (lines 557-597) -/

/-- Body of a `POST /api/orders/oneclick` request, destructured at
line 560 with defaults null for `customerId`, "100" for `amount`,
"JPY" for `currency`, and "Vault One-click charge" for `description`. -/
structure OneclickBody where
  vaultId : Option String
  customerId : Option String
  amount : Option String
  currency : Option String
  description : Option String
deriving DecidableEq

/-- The idempotency-related request headers named by the specification
(`x-idempotency-key`, `paypal-request-id`). -/
structure Headers where
  xIdempotencyKey : Option String
  paypalRequestId : Option String
deriving DecidableEq

/-- The amount field with its destructuring default "100" (line 560). -/
def amountOf (b : OneclickBody) : String := b.amount.getD "100"

/-- The currency field with its destructuring default "JPY" (line 560). -/
def currencyOf (b : OneclickBody) : String := b.currency.getD "JPY"

/-- The description field with its destructuring default
"Vault One-click charge" (line 560). -/
def descriptionOf (b : OneclickBody) : String := b.description.getD "Vault One-click charge"

/-- The zero-decimal-currency guard of line 563: currency is "JPY" and
the amount string contains a decimal point. -/
def jpyDecimalViolation (currency amount : String) : Bool :=
  currency == "JPY" && amount.data.contains '.'

/-- Data the handler reads off a successful order-creation response:
`createResp.data.id` and `createResp.data.status` (lines 579-580, 592). -/
structure CreateData where
  id : String
  status : String
deriving DecidableEq

/-- The payment processor as a black box (spec section 6): responses of
the token endpoint, the order-create endpoint (as a function of the
submitted payload), and the capture endpoint (as a function of the order
id).  `Except.error` carries the upstream error body (for capture this
includes any machine-readable issue code such as `ORDER_ALREADY_CAPTURED`;
the handler never decodes it). -/
structure Processor where
  token : Except String String
  create : OrderPayload → Except String CreateData
  capture : String → Except String String

/-- One outbound network call issued by a handler, with the
`PayPal-Request-Id` header value used where the source sends one. -/
inductive Call where
  | tokenFetch
  | orderCreate (requestId : String) (payload : OrderPayload)
  | orderCapture (requestId : String) (orderId : String)
deriving DecidableEq

/-- Response bodies the oneclick handler can produce:
`{ orderId, orderStatus, capture }` on success (line 592), or
`{ error, details? }` (lines 562, 563, 595). -/
inductive RespBody where
  | oneclickOk (orderId : String) (orderStatus : String) (capture : String)
  | err (error : String) (details : Option String)
deriving DecidableEq

/-- An HTTP response: status code plus JSON body. -/
structure HttpResponse where
  status : Nat
  body : RespBody
deriving DecidableEq

/-- Validation message of line 562. -/
def vaultIdRequiredMsg : String := "vaultId が必要です（PAYMENT_METHOD_TOKEN）"

/-- Validation message of line 563. -/
def jpyDecimalsMsg : String := "JPY は小数不可です。amount を整数文字列にしてください。"

/-- The order payload built by the oneclick handler (lines 565-569). -/
def oneclickOrderPayload (b : OneclickBody) : OrderPayload :=
  { intent := "CAPTURE"
    purchase_units :=
      [{ amount := { currency_code := currencyOf b, value := amountOf b }
         description := descriptionOf b }]
    payment_source := .token (b.vaultId.getD "") "PAYMENT_METHOD_TOKEN" }

/-- The `/api/orders/oneclick` handler (lines 557-597).  Control flow of
the source, in order: fetch the access token (line 559; a thrown error
lands in the catch at line 595), destructure the body with defaults
(line 560), the `!vaultId` check (line 562), the JPY-decimals check
(line 563), order creation with `PayPal-Request-Id:
ONECLICK-ORDER-<Date.now()>` (lines 572-577), capture with
`ONECLICK-CAPTURE-<Date.now()>` (lines 583-588), and the success
response `{ orderId, orderStatus: createResp.data.status, capture:
captureResp.data }` (line 592).  The handler keeps no state between
invocations — in particular there is no idempotency cache — and the
`_h : Headers` argument is never read. -/
def oneclick (p : Processor) (b : OneclickBody) (_h : Headers) (now : Nat) :
    HttpResponse × List Call :=
  match p.token with
  | .error e => (⟨500, .err "oneclick failed" (some e)⟩, [.tokenFetch])
  | .ok _ =>
    if !truthy b.vaultId then
      (⟨400, .err vaultIdRequiredMsg none⟩, [.tokenFetch])
    else if jpyDecimalViolation (currencyOf b) (amountOf b) then
      (⟨400, .err jpyDecimalsMsg none⟩, [.tokenFetch])
    else
      match p.create (oneclickOrderPayload b) with
      | .error e =>
          (⟨500, .err "oneclick failed" (some e)⟩,
           [.tokenFetch,
            .orderCreate ("ONECLICK-ORDER-" ++ toString now) (oneclickOrderPayload b)])
      | .ok cd =>
        match p.capture cd.id with
        | .error e =>
            (⟨500, .err "oneclick failed" (some e)⟩,
             [.tokenFetch,
              .orderCreate ("ONECLICK-ORDER-" ++ toString now) (oneclickOrderPayload b),
              .orderCapture ("ONECLICK-CAPTURE-" ++ toString now) cd.id])
        | .ok cap =>
            (⟨200, .oneclickOk cd.id cd.status cap⟩,
             [.tokenFetch,
              .orderCreate ("ONECLICK-ORDER-" ++ toString now) (oneclickOrderPayload b),
              .orderCapture ("ONECLICK-CAPTURE-" ++ toString now) cd.id])

/-- Observer: whether an outbound call is an order-create or
order-capture call (as opposed to the OAuth token fetch). -/
def isOutboundOrderCall : Call → Bool
  | .orderCreate _ _ => true
  | .orderCapture _ _ => true
  | .tokenFetch => false

/-- Observer: the `PayPal-Request-Id` values of the order-create calls
in a trace. -/
def createRequestIds (calls : List Call) : List String :=
  calls.filterMap fun c =>
    match c with
    | .orderCreate rid _ => some rid
    | _ => none

/-! ### Concrete fixtures for witnesses and counterexamples -/

/-- A processor on which every call succeeds. -/
def procHappy : Processor :=
  { token := .ok "ACCESS-TOKEN"
    create := fun _ => .ok { id := "ORD-1", status := "COMPLETED" }
    capture := fun _ => .ok "CAPTURE-DATA" }

/-- A processor whose capture endpoint rejects every capture with the
already-captured issue code in the error body. -/
def procAlreadyCaptured : Processor :=
  { token := .ok "ACCESS-TOKEN"
    create := fun _ => .ok { id := "ORD-1", status := "CREATED" }
    capture := fun _ => .error "ORDER_ALREADY_CAPTURED" }

/-- A processor whose token endpoint rejects the credential exchange. -/
def procTokenFail : Processor :=
  { token := .error "invalid_client"
    create := fun _ => .error "unreachable"
    capture := fun _ => .error "unreachable" }

/-- A oneclick body with a stored-instrument reference. -/
def bodyVault : OneclickBody :=
  { vaultId := some "TOKEN1", customerId := none
    amount := some "100", currency := some "JPY", description := none }

/-- A oneclick body with no `vaultId`. -/
def bodyNoVault : OneclickBody :=
  { vaultId := none, customerId := none
    amount := some "100", currency := some "JPY", description := none }

/-- A oneclick body with a fractional JPY amount. -/
def bodyJpyDecimal : OneclickBody :=
  { vaultId := some "TOKEN1", customerId := none
    amount := some "100.5", currency := some "JPY", description := none }

/-- Empty idempotency headers. -/
def hdrNone : Headers := { xIdempotencyKey := none, paypalRequestId := none }

/-- Headers carrying a caller-supplied idempotency key. -/
def hdrKey : Headers := { xIdempotencyKey := some "client-key-1", paypalRequestId := none }


/-! ### Claims -/

/-- Counterexample to claim C1 as stated: with a processor on which
every call succeeds, a one-click call with identifier "client-key-1"
(in the x-idempotency-key header) terminates successfully; the handler
is stateless (no idempotency cache exists anywhere in the source), so a
second call with the same identifier is the very same computation, and
it issues two outbound order-create/capture network calls — not the
zero calls the claim requires. -/
theorem oneclick_repeat_issues_outbound_calls_cex :
    (oneclick procHappy bodyVault hdrKey 0).1.status = 200 ∧
    ((oneclick procHappy bodyVault hdrKey 0).2.filter isOutboundOrderCall).length = 2 := by
  decide

/-- Claim C1 (amended): the one-click endpoint keeps no idempotency
cache; every call that terminates successfully — in particular a repeat
call with the identifier of an earlier successful call — has itself
issued the order-create and order-capture outbound calls (two outbound
order calls, never zero). -/
theorem oneclick_success_always_calls_processor :
    ∀ (p : Processor) (b : OneclickBody) (h : Headers) (t : Nat),
      (oneclick p b h t).1.status = 200 →
      ((oneclick p b h t).2.filter isOutboundOrderCall).length = 2 := by
  intro p b h t hs
  rcases htok : p.token with e | tok
  · simp [oneclick, htok] at hs
  · cases hv : truthy b.vaultId with
    | false => simp [oneclick, htok, hv] at hs
    | true =>
      cases hj : jpyDecimalViolation (currencyOf b) (amountOf b) with
      | true => simp [oneclick, htok, hv, hj] at hs
      | false =>
        rcases hc : p.create (oneclickOrderPayload b) with e | cd
        · simp [oneclick, htok, hv, hj, hc] at hs
        · rcases hcap : p.capture cd.id with e | cap
          · simp [oneclick, htok, hv, hj, hc, hcap] at hs
          · simp [oneclick, htok, hv, hj, hc, hcap, isOutboundOrderCall]

/-- Witness for the amended claim C1 at a concrete successful run. -/
theorem oneclick_success_always_calls_processor_witness :
    (oneclick procHappy bodyVault hdrNone 7).1.status = 200 ∧
    ((oneclick procHappy bodyVault hdrNone 7).2.filter isOutboundOrderCall).length = 2 :=
  ⟨by decide, oneclick_success_always_calls_processor procHappy bodyVault hdrNone 7 (by decide)⟩

/-- Counterexample to claim C2 as stated: when capture fails with the
already-captured issue code in the error body, the one-click call is
not reclassified as success — it returns HTTP 500 with the generic
error body (which contains no orderId and no non-error status), and no
recovery fetch or cache write occurs (the source has no such code). -/
theorem oneclick_already_captured_is_error_cex :
    oneclick procAlreadyCaptured bodyVault hdrNone 0 =
      (⟨500, .err "oneclick failed" (some "ORDER_ALREADY_CAPTURED")⟩,
       [.tokenFetch, .orderCreate "ONECLICK-ORDER-0" (oneclickOrderPayload bodyVault),
        .orderCapture "ONECLICK-CAPTURE-0" "ORD-1"]) := by
  decide

/-- Claim C2 (amended): any capture failure — including one whose error
body carries the already-captured issue code — makes the one-click call
return HTTP 500 with the generic failure message and the upstream error
body as details; there is no recovery and nothing resembling a cache
write. -/
theorem oneclick_capture_failure_500 :
    ∀ (p : Processor) (b : OneclickBody) (h : Headers) (t : Nat) (tok : String)
      (cd : CreateData) (e : String),
      p.token = .ok tok →
      truthy b.vaultId = true →
      jpyDecimalViolation (currencyOf b) (amountOf b) = false →
      p.create (oneclickOrderPayload b) = .ok cd →
      p.capture cd.id = .error e →
      oneclick p b h t =
        (⟨500, .err "oneclick failed" (some e)⟩,
         [.tokenFetch,
          .orderCreate ("ONECLICK-ORDER-" ++ toString t) (oneclickOrderPayload b),
          .orderCapture ("ONECLICK-CAPTURE-" ++ toString t) cd.id]) := by
  intro p b h t tok cd e htok hv hj hc hcap
  simp [oneclick, htok, hv, hj, hc, hcap]

/-- Witness for the amended claim C2 at the already-captured issue code. -/
theorem oneclick_capture_failure_500_witness :
    procAlreadyCaptured.capture "ORD-1" = .error "ORDER_ALREADY_CAPTURED" ∧
    oneclick procAlreadyCaptured bodyVault hdrNone 3 =
      (⟨500, .err "oneclick failed" (some "ORDER_ALREADY_CAPTURED")⟩,
       [.tokenFetch,
        .orderCreate ("ONECLICK-ORDER-" ++ toString 3) (oneclickOrderPayload bodyVault),
        .orderCapture ("ONECLICK-CAPTURE-" ++ toString 3) "ORD-1"]) :=
  ⟨rfl, oneclick_capture_failure_500 procAlreadyCaptured bodyVault hdrNone 3 "ACCESS-TOKEN"
     ⟨"ORD-1", "CREATED"⟩ "ORDER_ALREADY_CAPTURED" rfl (by decide) (by decide) rfl rfl⟩

/-- Counterexample to claim C3 as stated: a one-click request without
vaultId does fail with the validation error, but the claim that no
network call is made and the processor is never reached is false — the
trace of the call holds exactly one outbound call, the access-token
fetch against the processor, issued before validation. -/
theorem oneclick_missing_vaultid_token_fetched_cex :
    oneclick procHappy bodyNoVault hdrNone 0 =
      (⟨400, .err vaultIdRequiredMsg none⟩, [.tokenFetch]) ∧
    (oneclick procHappy bodyNoVault hdrNone 0).2.length = 1 := by
  decide

/-- Claim C3 (amended): for every one-click request whose body lacks a
truthy vaultId, once the access-token fetch has succeeded the call
fails with the vaultId-required validation error (HTTP 400) and issues
no order-create or capture call; the token fetch itself, however, is a
network call to the processor that precedes validation. -/
theorem oneclick_missing_vaultid_validation :
    ∀ (p : Processor) (b : OneclickBody) (h : Headers) (t : Nat) (tok : String),
      p.token = .ok tok →
      truthy b.vaultId = false →
      oneclick p b h t = (⟨400, .err vaultIdRequiredMsg none⟩, [.tokenFetch]) := by
  intro p b h t tok htok hv
  simp [oneclick, htok, hv]

/-- Witness for the amended claim C3 at a concrete missing-vaultId run. -/
theorem oneclick_missing_vaultid_validation_witness :
    truthy bodyNoVault.vaultId = false ∧
    oneclick procHappy bodyNoVault hdrNone 2 =
      (⟨400, .err vaultIdRequiredMsg none⟩, [.tokenFetch]) :=
  ⟨rfl, oneclick_missing_vaultid_validation procHappy bodyNoVault hdrNone 2 "ACCESS-TOKEN" rfl rfl⟩

/-- Counterexample to claim C4 as stated: a one-click request with
currency JPY and amount "100.5" is rejected with the JPY validation
error, but not before any network call — the trace already holds the
access-token fetch against the processor. -/
theorem oneclick_jpy_decimal_token_fetched_cex :
    oneclick procHappy bodyJpyDecimal hdrNone 0 =
      (⟨400, .err jpyDecimalsMsg none⟩, [.tokenFetch]) ∧
    (oneclick procHappy bodyJpyDecimal hdrNone 0).2.length = 1 := by
  decide

/-- Claim C4 (amended): for every one-click request with (defaulted)
currency JPY and an amount containing a decimal point, once the
access-token fetch has succeeded and vaultId is truthy, the call is
rejected with the JPY-decimals validation error (HTTP 400) and issues
no order-create or capture call; the token fetch, a network call to the
processor, precedes the check. -/
theorem oneclick_jpy_decimal_validation :
    ∀ (p : Processor) (b : OneclickBody) (h : Headers) (t : Nat) (tok : String),
      p.token = .ok tok →
      truthy b.vaultId = true →
      jpyDecimalViolation (currencyOf b) (amountOf b) = true →
      oneclick p b h t = (⟨400, .err jpyDecimalsMsg none⟩, [.tokenFetch]) := by
  intro p b h t tok htok hv hj
  simp [oneclick, htok, hv, hj]

/-- Witness for the amended claim C4 at amount "100.5", currency JPY. -/
theorem oneclick_jpy_decimal_validation_witness :
    jpyDecimalViolation (currencyOf bodyJpyDecimal) (amountOf bodyJpyDecimal) = true ∧
    oneclick procHappy bodyJpyDecimal hdrNone 4 =
      (⟨400, .err jpyDecimalsMsg none⟩, [.tokenFetch]) :=
  ⟨by decide, oneclick_jpy_decimal_validation procHappy bodyJpyDecimal hdrNone 4 "ACCESS-TOKEN"
     rfl (by decide) (by decide)⟩

/-- Counterexample to claim C5 as stated: with the caller-supplied
idempotency header "client-key-1" present, the order-create call is
sent with the freshly generated request id "ONECLICK-ORDER-5" (for
Date.now() = 5), which differs from the header value — the resolved
caller identifier is not used as the processor-facing idempotency key. -/
theorem oneclick_header_ignored_cex :
    createRequestIds (oneclick procHappy bodyVault hdrKey 5).2 = ["ONECLICK-ORDER-5"] ∧
    (("ONECLICK-ORDER-5" == "client-key-1") = false) := by
  decide

/-- Claim C5 (amended): the one-click handler never reads the
idempotency headers — its response and outbound calls are identical for
any header values — and every order-create call it issues carries the
freshly generated time-based request id built from the ONECLICK-ORDER
tag and Date.now(). -/
theorem oneclick_ignores_headers_fresh_id :
    ∀ (p : Processor) (b : OneclickBody) (h₁ h₂ : Headers) (t : Nat),
      oneclick p b h₁ t = oneclick p b h₂ t ∧
      ((createRequestIds (oneclick p b h₁ t).2).all
        fun rid => rid == "ONECLICK-ORDER-" ++ toString t) = true := by
  intro p b h₁ h₂ t
  refine ⟨rfl, ?_⟩
  rcases htok : p.token with e | tok
  · simp [oneclick, htok, createRequestIds]
  · cases hv : truthy b.vaultId with
    | false => simp [oneclick, htok, hv, createRequestIds]
    | true =>
      cases hj : jpyDecimalViolation (currencyOf b) (amountOf b) with
      | true => simp [oneclick, htok, hv, hj, createRequestIds]
      | false =>
        rcases hc : p.create (oneclickOrderPayload b) with e | cd
        · simp [oneclick, htok, hv, hj, hc, createRequestIds]
        · rcases hcap : p.capture cd.id with e | cap
          · simp [oneclick, htok, hv, hj, hc, hcap, createRequestIds]
          · simp [oneclick, htok, hv, hj, hc, hcap, createRequestIds]

/-- Counterexample to claim C6 as stated: an /api/orders request with
shippingMode "set_provided" still produces a payload whose shipping
preference is NO_SHIPPING, not SET_PROVIDED_ADDRESS (and the payload
carries no address block at all — no constructor of the payload type
has one, because the handler never builds one). -/
theorem orders_set_provided_maps_to_no_shipping_cex :
    shippingPrefOf (buildOrdersPayload ⟨none, none, some "set_provided"⟩) =
      some "NO_SHIPPING" ∧
    (("NO_SHIPPING" == "SET_PROVIDED_ADDRESS") = false) := by
  decide

/-- Claim C6 (amended): the /api/orders handler never reads
shippingMode — the payload is identical for any two shippingMode
values; the interactive branch always carries shipping preference
NO_SHIPPING and the stored-instrument branch carries no experience
context (hence no preference); no address is ever attached. -/
theorem orders_shipping_mode_ignored :
    ∀ (c v m₁ m₂ : Option String),
      buildOrdersPayload ⟨c, v, m₁⟩ = buildOrdersPayload ⟨c, v, m₂⟩ ∧
      shippingPrefOf (buildOrdersPayload ⟨c, v, m₁⟩) =
        (if truthy v then none else some "NO_SHIPPING") := by
  intro c v m₁ m₂
  refine ⟨rfl, ?_⟩
  by_cases hv : truthy v
  · simp [buildOrdersPayload, shippingPrefOf, hv]
  · by_cases hc : truthy c
    · simp [buildOrdersPayload, shippingPrefOf, setVaultCustomerId,
        ordersExperienceContext, hv, hc]
    · simp [buildOrdersPayload, shippingPrefOf, ordersExperienceContext, hv, hc]

/-- Claim C7: for every /api/orders request, a truthy vaultId yields a
token-type payment source referencing that instrument (with type
PAYMENT_METHOD_TOKEN and, by construction, no vault attributes); a
falsy one yields the interactive paypal source with vault attributes
ON_SUCCESS / MERCHANT / CONSUMER, whose customer_id is the supplied
customerId exactly when that is truthy. -/
theorem orders_payment_source_spec :
    ∀ (c v m : Option String),
      (buildOrdersPayload ⟨c, v, m⟩).payment_source =
        (if truthy v then
          PaymentSource.token (v.getD "") "PAYMENT_METHOD_TOKEN"
        else
          PaymentSource.paypal ordersExperienceContext
            { store_in_vault := "ON_SUCCESS", usage_type := "MERCHANT"
              customer_type := "CONSUMER"
              customer_id := if truthy c then c else none }) := by
  intro c v m
  by_cases hv : truthy v
  · simp [buildOrdersPayload, hv]
  · by_cases hc : truthy c
    · rcases c with _ | s
      · simp [truthy] at hc
      · simp [buildOrdersPayload, setVaultCustomerId, hv, hc]
    · simp [buildOrdersPayload, hv, hc]

/-- Claim C8: when the token fetch, validation, order creation and
capture of a one-click call all succeed, the response is HTTP 200 with
body exactly orderId = the created order id, orderStatus = the creation
response status, capture = the capture response. -/
theorem oneclick_success_response_shape :
    ∀ (p : Processor) (b : OneclickBody) (h : Headers) (t : Nat) (tok : String)
      (cd : CreateData) (cap : String),
      p.token = .ok tok →
      truthy b.vaultId = true →
      jpyDecimalViolation (currencyOf b) (amountOf b) = false →
      p.create (oneclickOrderPayload b) = .ok cd →
      p.capture cd.id = .ok cap →
      (oneclick p b h t).1 = ⟨200, .oneclickOk cd.id cd.status cap⟩ := by
  intro p b h t tok cd cap htok hv hj hc hcap
  simp [oneclick, htok, hv, hj, hc, hcap]

/-- Witness for claim C8 at a concrete fully successful run. -/
theorem oneclick_success_response_shape_witness :
    (oneclick procHappy bodyVault hdrNone 1).1 =
      ⟨200, .oneclickOk "ORD-1" "COMPLETED" "CAPTURE-DATA"⟩ :=
  oneclick_success_response_shape procHappy bodyVault hdrNone 1 "ACCESS-TOKEN"
    ⟨"ORD-1", "COMPLETED"⟩ "CAPTURE-DATA" rfl (by decide) (by decide) rfl rfl

/-- Claim C9: the one-click handler fetches the access token before any
input validation, so whenever the token fetch fails the call returns
the HTTP 500 generic failure (with the upstream error as details) after
exactly the one token-fetch network call — never a 400 validation
error, even for bodies missing vaultId or violating the JPY rule. -/
theorem oneclick_token_before_validation :
    ∀ (p : Processor) (b : OneclickBody) (h : Headers) (t : Nat) (e : String),
      p.token = .error e →
      oneclick p b h t = (⟨500, .err "oneclick failed" (some e)⟩, [.tokenFetch]) := by
  intro p b h t e htok
  simp [oneclick, htok]

/-- Witness for claim C9: with rejected credentials, even a body whose
vaultId is missing gets the 500 failure rather than the 400 validation
error. -/
theorem oneclick_token_before_validation_witness :
    bodyNoVault.vaultId = none ∧
    oneclick procTokenFail bodyNoVault hdrKey 0 =
      (⟨500, .err "oneclick failed" (some "invalid_client")⟩, [.tokenFetch]) :=
  ⟨rfl, oneclick_token_before_validation procTokenFail bodyNoVault hdrKey 0 "invalid_client" rfl⟩

/-- Claim C10: every /api/orders payload carries the hardcoded amount
(currency JPY, value "100") in both branches, and the payload depends
only on the customerId and vaultId fields of the body — two bodies
agreeing on those two fields yield the same payload, whatever amount,
currency or shippingMode the caller sent. -/
theorem orders_amount_hardcoded :
    ∀ (b b₂ : OrdersBody),
      ((buildOrdersPayload b).purchase_units.map fun u => u.amount) =
        [{ currency_code := "JPY", value := "100" }] ∧
      (b.customerId = b₂.customerId → b.vaultId = b₂.vaultId →
        buildOrdersPayload b = buildOrdersPayload b₂) := by
  intro b b₂
  constructor
  · by_cases hv : truthy b.vaultId
    · simp [buildOrdersPayload, hv]
    · by_cases hc : truthy b.customerId
      · simp [buildOrdersPayload, setVaultCustomerId, hv, hc]
      · simp [buildOrdersPayload, hv, hc]
  · intro h1 h2
    rcases b with ⟨bc, bv, bm⟩
    rcases b₂ with ⟨bc₂, bv₂, bm₂⟩
    dsimp at h1 h2
    subst h1
    subst h2
    rfl

/-- Witness for claim C10: two bodies differing only in shippingMode
produce the same payload, with the hardcoded JPY 100 amount. -/
theorem orders_amount_hardcoded_witness :
    ((buildOrdersPayload ⟨some "CUST-1", some "VAULT-1", some "none"⟩).purchase_units.map
        fun u => u.amount) = [{ currency_code := "JPY", value := "100" }] ∧
    buildOrdersPayload ⟨some "CUST-1", some "VAULT-1", some "none"⟩ =
      buildOrdersPayload ⟨some "CUST-1", some "VAULT-1", some "set_provided"⟩ :=
  ⟨(orders_amount_hardcoded ⟨some "CUST-1", some "VAULT-1", some "none"⟩
      ⟨some "CUST-1", some "VAULT-1", some "set_provided"⟩).1,
   (orders_amount_hardcoded ⟨some "CUST-1", some "VAULT-1", some "none"⟩
      ⟨some "CUST-1", some "VAULT-1", some "set_provided"⟩).2 rfl rfl⟩

end VaultServer
